import Mathlib

/-!
Shallow embedding of `torchdp/privacy_engine.py` (class `PrivacyEngine`).

Python floats are modelled as rationals; tensors as a shape together with a
flat list of values; the external torch RNG is modelled as a generator state
(seed plus a draw counter) together with an externally supplied stream
`sample : Nat → ℚ` of standard-normal draws, so that `torch.normal` with
standard deviation `σ` produces the values `σ * sample i`.  Exceptions are
modelled as an outcome value returned next to the (already mutated) engine
state, matching Python semantics where attribute mutations performed before a
`raise` survive the exception.
-/

namespace TorchDP

/-- Device type tag of `torch.device`: the source only distinguishes
`device.type == "cpu"` from everything else (line 407). -/
inductive DeviceType where
  | cpu
  | cuda
deriving DecidableEq

/-- Model of `torch.device`: a device type plus an index (e.g. `cuda:3`). -/
structure Device where
  type : DeviceType
  index : Nat
deriving DecidableEq

/-- Model of the torch generator produced by `torch.random.manual_seed` /
`torch.cuda.manual_seed` (lines 405-409): keyed by the seed value; `counter`
counts how many standard-normal draws have been consumed so far.  The draws
themselves come from the external stream passed to the operations that
draw noise (torch is an external collaborator of this repository). -/
structure Generator where
  kind : DeviceType
  seed : Int
  counter : Nat
deriving DecidableEq

/-- A tensor: a shape and a flat list of values. -/
structure Tensor where
  shape : List Nat
  vals : List ℚ
deriving DecidableEq

/-- A model parameter: its `requires_grad` flag and its `.grad` tensor.
In `step()` the gradient already holds the clipped, summed gradient written
by the external clipper before noise is added in place. -/
structure Param where
  requires_grad : Bool
  grad : Tensor
deriving DecidableEq

/-- Default parameter used with `List.getD`. -/
def defaultParam : Param :=
  { requires_grad := false, grad := { shape := [], vals := [] } }

/-- Model of `nn.Module` as far as the engine uses it: its parameter list,
in iteration order of `module.parameters()`. -/
structure NNModule where
  params : List Param
deriving DecidableEq

/-- The value returned by `_generate_noise` (lines 344-377): either a noise
tensor, or the Python float `0.0` when `noise_multiplier` is not positive. -/
inductive NoiseTerm where
  | tensor (shape : List Nat) (vals : List ℚ)
  | scalar (x : ℚ)
deriving DecidableEq

/-- `noise /= batch_size` (line 267): elementwise division (a Python float is
divided directly). -/
def NoiseTerm.divide : NoiseTerm → Nat → NoiseTerm
  | .tensor s v, b => .tensor s (v.map fun x => x / (b : ℚ))
  | .scalar x, b => .scalar (x / (b : ℚ))

/-- `p.grad += noise` (line 268): in-place addition of the noise term to a
gradient tensor; a Python float broadcasts over every entry. -/
def Tensor.addNoise (t : Tensor) : NoiseTerm → Tensor
  | .tensor _ v => { t with vals := List.zipWith (fun a b => a + b) t.vals v }
  | .scalar x => { t with vals := t.vals.map fun a => a + x }

/-- Modelled from the spec: the clipping collaborator
(`PerSampleGradientClipper`, whose source file is not part of this
repository).  Per the interface contract of the spec it accumulates clipped
per-example gradients: `accBatch` is the effective batch size already folded
into the accumulator, `pendingBatch` the size of the mini-batch currently held
as raw per-example gradients, and `clipValues` the per-parameter-group clip
values it will report from `pre_step()`. -/
structure ClipperState where
  accBatch : Nat
  pendingBatch : Nat
  clipValues : List ℚ
deriving DecidableEq

/-- Modelled from the spec: `clip_and_accumulate()` folds the pending
mini-batch into the accumulator and discards the raw per-example
gradients. -/
def ClipperState.clip_and_accumulate (c : ClipperState) : ClipperState :=
  { c with accBatch := c.accBatch + c.pendingBatch, pendingBatch := 0 }

/-- Modelled from the spec: `pre_step() -> (clip_values, batch_size)` reports
the per-group clip values and the total accumulated effective batch size, and
resets the accumulator for the next step. -/
def ClipperState.pre_step (c : ClipperState) : (List ℚ × Nat) × ClipperState :=
  ((c.clipValues, c.accBatch), { c with accBatch := 0 })

/-- The configured clip bound(s): one flat scalar or one bound per parameter
group (`max_grad_norm : Union[float, List[float]]`). -/
inductive ClipBound where
  | flat (c : ℚ)
  | perLayer (cs : List ℚ)
deriving DecidableEq

/-- State of `PrivacyEngine` (`__init__`, lines 40-103): the fields assigned
at construction.  `clipper` is `None` until `attach` creates it lazily. -/
structure PrivacyEngine where
  steps : Nat
  module : NNModule
  alphas : List ℚ
  device : Device
  batch_size : Nat
  sample_rate : ℚ
  noise_multiplier : ℚ
  max_grad_norm : ClipBound
  grad_norm_type : Nat
  batch_first : Bool
  target_delta : ℚ
  secure_seed : Int
  secure_generator : Generator
  clipper : Option ClipperState
  loss_reduction : String
deriving DecidableEq

/-- Outcome of a call that may raise: normal return (with the flag recording
whether a warning was emitted), a `ValueError`, or an `AttributeError`
(e.g. calling through a `None` clipper before `attach`). -/
inductive StepOutcome where
  | ok (warned : Bool)
  | valueError
  | attributeError
deriving DecidableEq

/-- Embedding of `PrivacyEngine._generate_noise` (lines 344-377).  When
`noise_multiplier > 0` it returns a Gaussian tensor of the same shape as
`reference.grad`, with standard deviation `noise_multiplier * max_grad_norm`,
drawn from the engine's generator (`shape.prod` draws are consumed, each drawn
value being `σ` times the next standard-normal draw of the stream); otherwise
it returns the Python float `0.0` and draws nothing. -/
def generateNoise (sample : Nat → ℚ) (noise_multiplier : ℚ) (g : Generator)
    (max_grad_norm : ℚ) (reference : Param) : NoiseTerm × Generator :=
  if 0 < noise_multiplier then
    (NoiseTerm.tensor reference.grad.shape
      ((List.range reference.grad.shape.prod).map fun i =>
        noise_multiplier * max_grad_norm * sample (g.counter + i)),
      { g with counter := g.counter + reference.grad.shape.prod })
  else
    (NoiseTerm.scalar 0, g)

/-- Embedding of the noise-injection loop of `step` (lines 263-268):
`for p, clip_value in zip((p for p in params if p.requires_grad), clip_values)`.
Parameters whose `requires_grad` is false are skipped without consuming a clip
value; the zip stops when either list is exhausted, leaving later parameters
untouched.  For each paired parameter, noise is generated from its clip value,
divided by the accumulated batch size when `loss_reduction == "mean"`, and
added in place to the existing gradient; the generator is threaded through. -/
def applyNoise (sample : Nat → ℚ) (noise_multiplier : ℚ) (loss_reduction : String)
    (batch : Nat) : List Param → List ℚ → Generator → List Param × Generator
  | [], _, g => ([], g)
  | p :: ps, clip_values, g =>
    if p.requires_grad then
      match clip_values with
      | [] => (p :: ps, g)
      | clip_value :: rest =>
        let ng := generateNoise sample noise_multiplier g clip_value p
        let noise := if loss_reduction = "mean" then ng.1.divide batch else ng.1
        let tail := applyNoise sample noise_multiplier loss_reduction batch ps rest ng.2
        ({ p with grad := p.grad.addNoise noise } :: tail.1, tail.2)
    else
      let tail := applyNoise sample noise_multiplier loss_reduction batch ps clip_values g
      (p :: tail.1, tail.2)

/-- Embedding of `PrivacyEngine.step` (lines 225-268), in source order:
`self.steps += 1` first; then `clip_and_accumulate()`; then `pre_step()`;
then the oversized-batch check raising `ValueError`
(`batch_size > self.batch_size`); then the undersized-batch warning
(`batch_size < self.batch_size`); then the noise-injection loop.  The engine
returned next to the outcome carries every mutation performed before a raise,
as in Python. -/
def PrivacyEngine.step (e : PrivacyEngine) (sample : Nat → ℚ) :
    PrivacyEngine × StepOutcome :=
  let e1 : PrivacyEngine := { e with steps := e.steps + 1 }
  match e1.clipper with
  | none => (e1, StepOutcome.attributeError)
  | some c0 =>
    let c1 := c0.clip_and_accumulate
    let pr := c1.pre_step
    let clip_values := pr.1.1
    let batch := pr.1.2
    let e2 : PrivacyEngine := { e1 with clipper := some pr.2 }
    if e2.batch_size < batch then
      (e2, StepOutcome.valueError)
    else
      let res := applyNoise sample e2.noise_multiplier e2.loss_reduction batch
        e2.module.params clip_values e2.secure_generator
      ({ e2 with module := { params := res.1 }, secure_generator := res.2 },
        if batch < e2.batch_size then StepOutcome.ok true else StepOutcome.ok false)

/-- Embedding of `PrivacyEngine.virtual_step` (lines 299-342): a single
`self.clipper.clip_and_accumulate()` and nothing else. -/
def PrivacyEngine.virtual_step (e : PrivacyEngine) : PrivacyEngine × StepOutcome :=
  match e.clipper with
  | none => (e, StepOutcome.attributeError)
  | some c =>
    ({ e with clipper := some c.clip_and_accumulate }, StepOutcome.ok false)

/-- `n` successive calls to `virtual_step` (keeping only the engine state). -/
def virtualIter : Nat → PrivacyEngine → PrivacyEngine
  | 0, e => e
  | n + 1, e => virtualIter n e.virtual_step.1

/-- Embedding of `PrivacyEngine.to` (lines 270-297): `self.device = device;
return self`. -/
def PrivacyEngine.to (e : PrivacyEngine) (device : Device) : PrivacyEngine :=
  { e with device := device }

/-- Embedding of `PrivacyEngine.get_renyi_divergence` (lines 192-198):
`compute_rdp(self.sample_rate, self.noise_multiplier, 1, self.alphas)`.
The function `compute_rdp` lives in `privacy_analysis.py`, which is not part
of this repository; per the spec it is a pure function of
`(sample_rate, noise_multiplier, step_count, orders)`, so it is passed in as
an arbitrary such function. -/
def PrivacyEngine.get_renyi_divergence (e : PrivacyEngine)
    (computeRdp : ℚ → ℚ → Nat → List ℚ → List ℚ) : List ℚ :=
  computeRdp e.sample_rate e.noise_multiplier 1 e.alphas

/-- The local `rdp = self.get_renyi_divergence() * self.steps` of
`get_privacy_spent` (line 222): elementwise scalar multiplication of the
per-step RDP vector by the step count. -/
def PrivacyEngine.cumulative_rdp (e : PrivacyEngine)
    (computeRdp : ℚ → ℚ → Nat → List ℚ → List ℚ) : List ℚ :=
  (e.get_renyi_divergence computeRdp).map fun r => r * (e.steps : ℚ)

/-- First component of the pair minimising the first component, ties broken by
the earliest entry (lowest order when the orders are listed in increasing
order); `(0, 0)` on an empty list. -/
def minEpsPair : List (ℚ × ℚ) → ℚ × ℚ
  | [] => (0, 0)
  | [p] => p
  | p :: q :: r =>
    let m := minEpsPair (q :: r)
    if p.1 ≤ m.1 then p else m

/-- Modelled from the spec: `privacy_analysis.get_privacy_spent` (called
`tf_privacy.get_privacy_spent` at line 223); its source file is not part of
this repository.  Per the spec it converts the cumulative RDP curve to an
`(epsilon, best_order)` pair by minimising, over the supplied orders, the
epsilon implied by the standard RDP-to-(epsilon, delta) conversion, with ties
broken deterministically towards the lowest order.  The conversion formula
itself is an explicit non-goal of the spec; the spec fixes that a zero
cumulative RDP yields epsilon 0, so the implied epsilon at an order is
modelled as the cumulative RDP value at that order, with `target_delta`
left unused by the model. -/
def tfGetPrivacySpent (alphas : List ℚ) (rdp : List ℚ) (targetDelta : ℚ) : ℚ × ℚ :=
  let _ := targetDelta
  minEpsPair (List.zip rdp alphas)

/-- Embedding of `PrivacyEngine.get_privacy_spent` (lines 200-223): defaults
`target_delta` to the engine's configured value when `None`, multiplies the
single-step RDP vector by `steps`, and hands the result to the RDP-to-epsilon
conversion.  The body assigns no engine attribute, so the engine is returned
unchanged next to the result. -/
def PrivacyEngine.get_privacy_spent (e : PrivacyEngine)
    (computeRdp : ℚ → ℚ → Nat → List ℚ → List ℚ) (target_delta : Option ℚ) :
    PrivacyEngine × (ℚ × ℚ) :=
  let td := match target_delta with
    | none => e.target_delta
    | some d => d
  (e, tfGetPrivacySpent e.alphas (e.cumulative_rdp computeRdp) td)

/-- `int.from_bytes(bytes, byteorder="big", signed=True)` (lines 402-404):
big-endian unsigned accumulation followed by two's-complement sign
adjustment. -/
def intFromBytesBigSigned (bytes : List Nat) : Int :=
  let u : Nat := bytes.foldl (fun a b => a * 256 + b) 0
  if 2 ^ (8 * bytes.length - 1) ≤ u then (u : Int) - 2 ^ (8 * bytes.length) else (u : Int)

/-- The generator construction of `_set_seed` (lines 405-409):
`torch.random.manual_seed(seed)` on a CPU device, `torch.cuda.manual_seed(seed)`
otherwise — in both cases a generator keyed by the same seed value, with no
draws consumed yet. -/
def mkSeededGenerator (device : Device) (seed : Int) : Generator :=
  { kind := device.type, seed := seed, counter := 0 }

/-- Embedding of `PrivacyEngine._set_seed` (lines 379-409).  `urandom8` is the
byte string returned by the external `os.urandom(8)`.  The returned flag
records whether the manual-seed warning was emitted: it is emitted exactly
when a seed is explicitly supplied; otherwise the seed is read from the secure
source as a signed big-endian integer.  In both cases the generator is rebuilt
keyed by the resulting seed. -/
def PrivacyEngine.set_seed (e : PrivacyEngine) (secure_seed : Option Int)
    (urandom8 : List Nat) : PrivacyEngine × Bool :=
  match secure_seed with
  | some s =>
    ({ e with secure_seed := s, secure_generator := mkSeededGenerator e.device s }, true)
  | none =>
    let s := intFromBytesBigSigned urandom8
    ({ e with secure_seed := s, secure_generator := mkSeededGenerator e.device s }, false)

/-- Number of trainable parameters strictly before index `j` — the number of
clip values the zip of the noise loop has consumed before reaching `j`. -/
def trainableBefore (ps : List Param) (j : Nat) : Nat :=
  ((ps.take j).filter fun p => p.requires_grad).length

/-- The plain Python functions involved in `attach`/`detach`
(lines 105-190): the optimizer class's own `step(self, closure=None)`, the
`dp_step(self, closure=None)` installed by `attach`, and the companion
`virtual_step(self)` installed by `attach`. -/
inductive PyFunc where
  | optimStep
  | dpStep
  | optimVirtualStep
deriving DecidableEq

/-- Python values appearing as call arguments here: an object (identified by
id), `None`, or an opaque closure. -/
inductive PyVal where
  | obj (id : Nat)
  | pynone
  | closure (id : Nat)
deriving DecidableEq

/-- A Python callable as used by `attach`/`detach`: a plain function, or
`types.MethodType(f, obj)` which prepends `obj` to the positional arguments
on every call.  Binding an already-bound method prepends a second self. -/
inductive PyCallable where
  | plain (f : PyFunc)
  | bound (f : PyCallable) (selfId : Nat)
deriving DecidableEq

/-- Python call semantics: the underlying plain function eventually invoked
and the full positional argument list it receives. -/
def PyCallable.call : PyCallable → List PyVal → PyFunc × List PyVal
  | .plain f, args => (f, args)
  | .bound f selfId, args => PyCallable.call f (.obj selfId :: args)

/-- The optimizer object as `attach`/`detach` see it: its instance attributes
(each `none` when absent, in which case `step` falls back to the class's bound
method), plus whether `optimizer.privacy_engine` currently points at an
engine. -/
structure Optimizer where
  id : Nat
  stepAttr : Option PyCallable
  original_step : Option PyCallable
  virtualStepAttr : Option PyCallable
  engineAttached : Bool
deriving DecidableEq

/-- Attribute lookup of `optimizer.step`: the instance attribute if present,
else the class's `step` bound to the instance. -/
def Optimizer.getStep (o : Optimizer) : PyCallable :=
  match o.stepAttr with
  | some f => f
  | none => PyCallable.bound (PyCallable.plain PyFunc.optimStep) o.id

/-- A freshly constructed optimizer: no instance attributes installed. -/
def freshOptimizer (id : Nat) : Optimizer :=
  { id := id, stepAttr := none, original_step := none, virtualStepAttr := none,
    engineAttached := false }

/-- Embedding of the optimizer-side effects of `PrivacyEngine.attach`
(lines 168-190): store a back-reference, save the current (bound) `step` as
`original_step`, install `types.MethodType(dp_step, optimizer)` as `step`, and
install `types.MethodType(virtual_step, optimizer)` as `virtual_step`.
The engine-side effects (model validation, clipper construction) involve only
external collaborators and are not modelled here. -/
def attachOpt (o : Optimizer) : Optimizer :=
  { o with
    engineAttached := true,
    original_step := some o.getStep,
    stepAttr := some (PyCallable.bound (PyCallable.plain PyFunc.dpStep) o.id),
    virtualStepAttr := some (PyCallable.bound (PyCallable.plain PyFunc.optimVirtualStep) o.id) }

/-- Embedding of the optimizer-side effects of `PrivacyEngine.detach`
(lines 105-117): clear the back-reference, set
`optim.step = types.MethodType(optim.original_step, optim)` — note that
`original_step` is itself already a bound method — and delete
`optim.virtual_step`.  Returns `none` (an `AttributeError`) when
`original_step` was never installed. -/
def detachOpt (o : Optimizer) : Option Optimizer :=
  match o.original_step with
  | none => none
  | some f =>
    some { o with
      engineAttached := false,
      stepAttr := some (PyCallable.bound f o.id),
      virtualStepAttr := none }

/-- The engine components that `virtual_step` and `get_privacy_spent` must
leave untouched: step counter, parameters/gradients, accountant parameters and
the randomness source. -/
def coreView (e : PrivacyEngine) :
    Nat × NNModule × ℚ × ℚ × List ℚ × ℚ × Generator :=
  (e.steps, e.module, e.sample_rate, e.noise_multiplier, e.alphas,
    e.target_delta, e.secure_generator)

/-- A concrete standard-normal stream used in witnesses. -/
def egSample : Nat → ℚ := fun _ => 1

/-- A concrete gradient tensor of shape `[2]`. -/
def egTensor : Tensor := { shape := [2], vals := [1, 2] }

/-- A concrete trainable parameter. -/
def egParam : Param := { requires_grad := true, grad := egTensor }

/-- A concrete one-parameter model. -/
def egModule : NNModule := { params := [egParam] }

/-- A concrete CPU device. -/
def egDevice : Device := { type := DeviceType.cpu, index := 0 }

/-- A concrete generator. -/
def egGen : Generator := { kind := DeviceType.cpu, seed := 7, counter := 0 }

/-- A clipper holding an accumulated batch of 20 (below the configured 32). -/
def egClipperWarn : ClipperState :=
  { accBatch := 0, pendingBatch := 20, clipValues := [1] }

/-- A clipper holding an accumulated batch of 40 (above the configured 32). -/
def egClipperOver : ClipperState :=
  { accBatch := 0, pendingBatch := 40, clipValues := [1] }

/-- A concrete engine: batch_size 32, mean reduction, one trainable
parameter, no completed privacy step yet. -/
def egEngine : PrivacyEngine :=
  { steps := 0, module := egModule, alphas := [2, 3], device := egDevice,
    batch_size := 32, sample_rate := 1 / 10, noise_multiplier := 1,
    max_grad_norm := ClipBound.flat 1, grad_norm_type := 2, batch_first := true,
    target_delta := 1 / 1000000, secure_seed := 7, secure_generator := egGen,
    clipper := some egClipperWarn, loss_reduction := "mean" }

/-- The same engine with an oversized accumulated batch (40 > 32). -/
def egEngineOver : PrivacyEngine := { egEngine with clipper := some egClipperOver }

/-- A concrete pure stand-in for `compute_rdp` used in witnesses. -/
def egRdpFn : ℚ → ℚ → Nat → List ℚ → List ℚ := fun _ _ _ orders => orders

/-- Concrete bytes standing for one `os.urandom(8)` output. -/
def egBytes : List Nat := [255, 0, 0, 0, 0, 0, 0, 1]

/-- C2: `step()` raises `ValueError` exactly when the accumulated batch size
reported by the clipper's `pre_step()` strictly exceeds the configured
`batch_size`; strictly below it, the step completes normally with a non-fatal
warning; at equality it completes with no warning. -/
theorem step_valueError_iff_oversized (sample : Nat → ℚ) (e : PrivacyEngine)
    (c : ClipperState) (h : e.clipper = some c) :
    ((e.step sample).2 = StepOutcome.valueError ↔
      e.batch_size < c.accBatch + c.pendingBatch) ∧
    (c.accBatch + c.pendingBatch < e.batch_size →
      (e.step sample).2 = StepOutcome.ok true) ∧
    (c.accBatch + c.pendingBatch = e.batch_size →
      (e.step sample).2 = StepOutcome.ok false) := by
  simp only [PrivacyEngine.step, h, ClipperState.clip_and_accumulate,
    ClipperState.pre_step]
  split_ifs with h1 h2 <;> simp_all <;> omega

/-- C2 witness: with batch_size 32 an accumulated batch of 40 raises the
usage error and an accumulated batch of 20 completes with a warning. -/
theorem step_valueError_iff_oversized_witness :
    (egEngineOver.step egSample).2 = StepOutcome.valueError ∧
    (egEngine.step egSample).2 = StepOutcome.ok true :=
  ⟨(step_valueError_iff_oversized egSample egEngineOver egClipperOver rfl).1.mpr
      (by decide),
   (step_valueError_iff_oversized egSample egEngine egClipperWarn rfl).2.1
      (by decide)⟩

/-- C1 counterexample: at a concrete engine with accumulated batch 40 against
configured batch_size 32, `step()` raises the oversized-batch `ValueError`,
yet the engine's `steps` counter is NOT left unchanged — it has advanced,
because the source increments `steps` before validating the batch size. -/
theorem step_oversized_advances_steps_cex :
    (egEngineOver.step egSample).2 = StepOutcome.valueError ∧
    ¬ (egEngineOver.step egSample).1.steps = egEngineOver.steps := by
  decide

/-- C1 (amended): `steps` is incremented by exactly one at the start of
`step()`, before clipping and validation, so it advances even when the
oversized-batch `ValueError` is raised; in the error case no noise is injected
into any gradient (the model and generator are untouched). -/
theorem step_advances_steps_and_no_noise_on_error (sample : Nat → ℚ)
    (e : PrivacyEngine) (c : ClipperState) (h : e.clipper = some c) :
    (e.step sample).1.steps = e.steps + 1 ∧
    ((e.step sample).2 = StepOutcome.valueError →
      (e.step sample).1.module = e.module ∧
      (e.step sample).1.secure_generator = e.secure_generator) := by
  simp only [PrivacyEngine.step, h, ClipperState.clip_and_accumulate,
    ClipperState.pre_step]
  split_ifs with h1 <;> simp

/-- C1 witness: at the oversized concrete engine the amended statement is
realised: the error is raised, steps advanced by one, gradients and generator
untouched. -/
theorem step_advances_steps_witness :
    (egEngineOver.step egSample).1.steps = egEngineOver.steps + 1 ∧
    (egEngineOver.step egSample).1.module = egEngineOver.module ∧
    (egEngineOver.step egSample).1.secure_generator = egEngineOver.secure_generator :=
  ⟨(step_advances_steps_and_no_noise_on_error egSample egEngineOver egClipperOver
      rfl).1,
   (step_advances_steps_and_no_noise_on_error egSample egEngineOver egClipperOver
      rfl).2 (by decide)⟩

/-- C6: when `noise_multiplier > 0`, `_generate_noise` returns a tensor of the
same shape as the reference parameter's gradient; when `noise_multiplier = 0`
the returned term is the additive identity — adding it to any gradient leaves
the gradient unchanged — on every call. -/
theorem generate_noise_shape_and_zero_identity (sample : Nat → ℚ) (nm : ℚ)
    (g : Generator) (clip : ℚ) (p : Param) :
    (0 < nm → ∃ vals : List ℚ,
      (generateNoise sample nm g clip p).1 = NoiseTerm.tensor p.grad.shape vals ∧
      vals.length = p.grad.shape.prod) ∧
    (nm = 0 → ∀ t : Tensor, t.addNoise (generateNoise sample nm g clip p).1 = t) := by
  constructor
  · intro hnm
    refine ⟨(List.range p.grad.shape.prod).map fun i =>
      nm * clip * sample (g.counter + i), ?_, ?_⟩
    · simp [generateNoise, hnm]
    · simp
  · intro hnm t
    subst hnm
    simp [generateNoise, Tensor.addNoise]

/-- C6 witness: at a shape-`[2]` reference the positive-multiplier branch
yields a shape-`[2]` tensor of 2 values, and with multiplier 0 adding the
returned term to a concrete gradient leaves it unchanged. -/
theorem generate_noise_witness :
    (∃ vals : List ℚ,
      (generateNoise egSample 1 egGen 2 egParam).1 = NoiseTerm.tensor [2] vals ∧
      vals.length = 2) ∧
    egTensor.addNoise (generateNoise egSample 0 egGen 2 egParam).1 = egTensor := by
  constructor
  · have h := (generate_noise_shape_and_zero_identity egSample 1 egGen 2 egParam).1
      (by norm_num)
    simpa [egParam, egTensor] using h
  · exact (generate_noise_shape_and_zero_identity egSample 0 egGen 2 egParam).2
      rfl egTensor

/-- C10: `to(device)` updates only the engine's device field; every other
component — in particular `secure_seed` and the `secure_generator` created at
construction — is unchanged (the generator is neither recreated nor reseeded),
and the updated engine itself is returned. -/
theorem to_device_frame (e : PrivacyEngine) (d : Device) :
    PrivacyEngine.to e d = { e with device := d } ∧
    (e.to d).device = d ∧ (e.to d).steps = e.steps ∧ (e.to d).module = e.module ∧
    (e.to d).alphas = e.alphas ∧ (e.to d).batch_size = e.batch_size ∧
    (e.to d).sample_rate = e.sample_rate ∧
    (e.to d).noise_multiplier = e.noise_multiplier ∧
    (e.to d).max_grad_norm = e.max_grad_norm ∧
    (e.to d).grad_norm_type = e.grad_norm_type ∧
    (e.to d).batch_first = e.batch_first ∧
    (e.to d).target_delta = e.target_delta ∧
    (e.to d).secure_seed = e.secure_seed ∧
    (e.to d).secure_generator = e.secure_generator ∧
    (e.to d).clipper = e.clipper ∧
    (e.to d).loss_reduction = e.loss_reduction := by
  simp [PrivacyEngine.to]

/-- C3: the attach/detach round-trip does NOT restore the optimizer's step
behavior.  `attach` saves the already-bound `optimizer.step` as
`original_step`; `detach` re-wraps it as
`types.MethodType(optim.original_step, optim)`, binding a second self, so the
restored `optimizer.step()` invokes the class's original step with an extra
leading argument: the original step receives the optimizer object where its
`closure` parameter (previously `None`) used to be.  The companion
`virtual_step` entry point is correctly removed. -/
theorem attach_detach_not_roundtrip :
    ∃ o2 : Optimizer,
      detachOpt (attachOpt (freshOptimizer 0)) = some o2 ∧
      o2.virtualStepAttr = none ∧
      (freshOptimizer 0).getStep.call [PyVal.pynone] =
        (PyFunc.optimStep, [PyVal.obj 0, PyVal.pynone]) ∧
      o2.getStep.call [PyVal.pynone] =
        (PyFunc.optimStep, [PyVal.obj 0, PyVal.obj 0, PyVal.pynone]) ∧
      o2.getStep.call [PyVal.pynone] ≠ (freshOptimizer 0).getStep.call [PyVal.pynone] :=
  ⟨{ id := 0,
     stepAttr := some (PyCallable.bound
       (PyCallable.bound (PyCallable.plain PyFunc.optimStep) 0) 0),
     original_step := some (PyCallable.bound (PyCallable.plain PyFunc.optimStep) 0),
     virtualStepAttr := none,
     engineAttached := false }, by decide⟩

/-- Helper for C4: `getD` through an elementwise scalar multiplication. -/
theorem getD_map_mul (s : ℚ) : ∀ (l : List ℚ) (i : Nat),
    (l.map fun r => r * s).getD i 0 = s * l.getD i 0
  | [], i => by simp
  | a :: l, 0 => by simp [mul_comm]
  | a :: l, i + 1 => by simpa using getD_map_mul s l i

/-- C4: the cumulative RDP vector that `get_privacy_spent` hands to the
RDP-to-epsilon conversion is, at every order, the step count times the
per-step RDP vector computed by `compute_rdp` for a single step at the
engine's fixed sample_rate and noise_multiplier; at `steps = 0` it is zero at
every order. -/
theorem cumulative_rdp_linear (computeRdp : ℚ → ℚ → Nat → List ℚ → List ℚ)
    (e : PrivacyEngine) (td : Option ℚ) :
    (e.cumulative_rdp computeRdp).length =
      (e.get_renyi_divergence computeRdp).length ∧
    (∀ i : Nat, (e.cumulative_rdp computeRdp).getD i 0 =
      (e.steps : ℚ) * (e.get_renyi_divergence computeRdp).getD i 0) ∧
    (e.steps = 0 → ∀ r ∈ e.cumulative_rdp computeRdp, r = 0) ∧
    (e.get_privacy_spent computeRdp td).2 =
      tfGetPrivacySpent e.alphas (e.cumulative_rdp computeRdp)
        (match td with | none => e.target_delta | some d => d) := by
  refine ⟨by simp [PrivacyEngine.cumulative_rdp], ?_, ?_, rfl⟩
  · intro i
    exact getD_map_mul _ _ i
  · intro h r hr
    rw [PrivacyEngine.cumulative_rdp] at hr
    rcases List.mem_map.mp hr with ⟨a, _, ha⟩
    rw [← ha, h]
    simp

/-- C4 witness: at a concrete engine with zero completed steps the cumulative
RDP entry at order index 0 is the step count times the per-step entry, and is
zero. -/
theorem cumulative_rdp_linear_witness :
    (egEngine.cumulative_rdp egRdpFn).getD 0 0 =
      (egEngine.steps : ℚ) * (egEngine.get_renyi_divergence egRdpFn).getD 0 0 ∧
    (egEngine.cumulative_rdp egRdpFn).getD 0 0 = 0 :=
  ⟨(cumulative_rdp_linear egRdpFn egEngine none).2.1 0,
   (cumulative_rdp_linear egRdpFn egEngine none).2.2.1 rfl _
     (by simp [egEngine, egRdpFn, PrivacyEngine.cumulative_rdp,
       PrivacyEngine.get_renyi_divergence])⟩

/-- Helper for C5: one `virtual_step` call leaves the step counter, the model
parameters, the accountant parameters and the randomness source unchanged. -/
theorem virtual_step_core (e : PrivacyEngine) :
    coreView e.virtual_step.1 = coreView e := by
  rcases h : e.clipper with _ | c <;>
    simp [PrivacyEngine.virtual_step, h, coreView]

/-- Helper for C5: any number of `virtual_step` calls leaves the core view
unchanged. -/
theorem virtualIter_core (n : Nat) : ∀ e : PrivacyEngine,
    coreView (virtualIter n e) = coreView e := by
  induction n with
  | zero => intro e; rfl
  | succ n ih =>
    intro e
    calc coreView (virtualIter n e.virtual_step.1)
        = coreView e.virtual_step.1 := ih e.virtual_step.1
      _ = coreView e := virtual_step_core e

/-- C5: `virtual_step()` only instructs the clipping collaborator to clip and
accumulate: the clipper is replaced by its `clip_and_accumulate` successor and
nothing else changes — no noise is drawn (the generator is untouched), and
`steps`, the gradients and every accountant parameter (sample_rate,
noise_multiplier, alphas, target_delta) are unchanged; moreover any number of
consecutive calls (including zero) leaves all of those unchanged. -/
theorem virtual_step_clip_only (e : PrivacyEngine) (c : ClipperState) (n : Nat)
    (h : e.clipper = some c) :
    e.virtual_step =
      ({ e with clipper := some c.clip_and_accumulate }, StepOutcome.ok false) ∧
    coreView (virtualIter n e) = coreView e := by
  constructor
  · simp [PrivacyEngine.virtual_step, h]
  · exact virtualIter_core n e

/-- C5 witness: at the concrete engine, one `virtual_step` only folds the
pending batch into the clipper, and three consecutive calls leave the core
view unchanged. -/
theorem virtual_step_clip_only_witness :
    egEngine.virtual_step =
      ({ egEngine with clipper := some egClipperWarn.clip_and_accumulate },
        StepOutcome.ok false) ∧
    coreView (virtualIter 3 egEngine) = coreView egEngine :=
  virtual_step_clip_only egEngine egClipperWarn 3 rfl

/-- Helper for C8: the epsilon component of the minimising pair is zero when
every candidate epsilon is zero. -/
theorem minEpsPair_fst_zero : ∀ l : List (ℚ × ℚ),
    (∀ x ∈ l, x.1 = 0) → (minEpsPair l).1 = 0
  | [], _ => rfl
  | [p], h => h p (by simp)
  | p :: q :: r, h => by
    have hm := minEpsPair_fst_zero (q :: r)
      (fun x hx => h x (List.mem_cons_of_mem p hx))
    have hp := h p (List.mem_cons_self p _)
    simp only [minEpsPair]
    split_ifs <;> assumption

/-- C8: `get_privacy_spent` is side-effect-free — the engine (steps,
sample_rate, noise_multiplier, alphas, target_delta and the randomness
source) is returned unchanged; with `target_delta = None` it uses the
engine's configured target_delta; and before any `step()` (steps = 0) the
reported epsilon is 0. -/
theorem get_privacy_spent_pure (computeRdp : ℚ → ℚ → Nat → List ℚ → List ℚ)
    (e : PrivacyEngine) (td : Option ℚ) :
    (e.get_privacy_spent computeRdp td).1 = e ∧
    (td = none → (e.get_privacy_spent computeRdp td).2 =
      tfGetPrivacySpent e.alphas (e.cumulative_rdp computeRdp) e.target_delta) ∧
    (e.steps = 0 → ((e.get_privacy_spent computeRdp td).2).1 = 0) := by
  refine ⟨rfl, ?_, ?_⟩
  · intro h
    subst h
    rfl
  · intro h
    have hall : ∀ x ∈ List.zip (e.cumulative_rdp computeRdp) e.alphas, x.1 = 0 := by
      intro x hx
      have hx1 := (List.of_mem_zip hx).1
      rcases List.mem_map.mp hx1 with ⟨a, _, ha⟩
      rw [← ha, h]
      simp
    exact minEpsPair_fst_zero _ hall

/-- C8 witness: at the concrete zero-step engine queried with `None`, the
engine is returned unchanged, the configured target_delta is used, and the
reported epsilon is 0. -/
theorem get_privacy_spent_pure_witness :
    (egEngine.get_privacy_spent egRdpFn none).1 = egEngine ∧
    (egEngine.get_privacy_spent egRdpFn none).2 =
      tfGetPrivacySpent egEngine.alphas (egEngine.cumulative_rdp egRdpFn)
        egEngine.target_delta ∧
    (egEngine.get_privacy_spent egRdpFn none).2.1 = 0 :=
  ⟨(get_privacy_spent_pure egRdpFn egEngine none).1,
   (get_privacy_spent_pure egRdpFn egEngine none).2.1 rfl,
   (get_privacy_spent_pure egRdpFn egEngine none).2.2 rfl⟩

/-- Helper for C7: counting trainable parameters before a successor index. -/
theorem trainableBefore_cons (p : Param) (ps : List Param) (j : Nat) :
    trainableBefore (p :: ps) (j + 1) =
      (if p.requires_grad then 1 else 0) + trainableBefore ps j := by
  by_cases hp : p.requires_grad <;>
    simp [trainableBefore, List.take_succ_cons, List.filter, hp, Nat.add_comm]

/-- Helper for C7: the noise loop never touches a parameter whose
`requires_grad` is false. -/
theorem applyNoise_untouched (sample : Nat → ℚ) (nm : ℚ) (lr : String)
    (batch : Nat) : ∀ (ps : List Param) (cvs : List ℚ) (g : Generator) (j : Nat),
    (ps.getD j defaultParam).requires_grad = false →
    (applyNoise sample nm lr batch ps cvs g).1.getD j defaultParam =
      ps.getD j defaultParam
  | [], cvs, g, j, _ => by simp [applyNoise]
  | p :: ps, cvs, g, 0, h => by
    simp only [List.getD_cons_zero] at h
    cases cvs with
    | nil => simp [applyNoise, h]
    | cons cv rest => simp [applyNoise, h]
  | p :: ps, cvs, g, j + 1, h => by
    simp only [List.getD_cons_succ] at h
    by_cases hp : p.requires_grad
    · cases cvs with
      | nil => simp [applyNoise, hp]
      | cons cv rest =>
        simpa [applyNoise, hp] using
          applyNoise_untouched sample nm lr batch ps rest _ j h
    · simpa [applyNoise, hp] using
        applyNoise_untouched sample nm lr batch ps cvs g j h

/-- Helper for C7: the noise loop pairs the k-th trainable parameter with the
k-th clip value, generates noise from that clip value and the parameter's
gradient at some generator state, divides it by the accumulated batch size
exactly when `loss_reduction == "mean"`, and adds it in place to the
parameter's existing gradient. -/
theorem applyNoise_trainable (sample : Nat → ℚ) (nm : ℚ) (lr : String)
    (batch : Nat) : ∀ (ps : List Param) (cvs : List ℚ) (g : Generator) (j : Nat),
    (ps.getD j defaultParam).requires_grad = true →
    trainableBefore ps j < cvs.length →
    ∃ g' : Generator,
      (applyNoise sample nm lr batch ps cvs g).1.getD j defaultParam =
        { ps.getD j defaultParam with
          grad := (ps.getD j defaultParam).grad.addNoise
            (if lr = "mean"
             then (generateNoise sample nm g' (cvs.getD (trainableBefore ps j) 0)
                     (ps.getD j defaultParam)).1.divide batch
             else (generateNoise sample nm g' (cvs.getD (trainableBefore ps j) 0)
                     (ps.getD j defaultParam)).1) }
  | [], cvs, g, j, h, _ => by simp [defaultParam] at h
  | p :: ps, cvs, g, 0, h, hlt => by
    simp only [List.getD_cons_zero] at h ⊢
    have h0 : trainableBefore (p :: ps) 0 = 0 := rfl
    rw [h0] at hlt ⊢
    cases cvs with
    | nil => simp at hlt
    | cons cv rest =>
      refine ⟨g, ?_⟩
      simp [applyNoise, h]
  | p :: ps, cvs, g, j + 1, h, hlt => by
    simp only [List.getD_cons_succ] at h ⊢
    rw [trainableBefore_cons] at hlt ⊢
    by_cases hp : p.requires_grad
    · rw [if_pos hp] at hlt ⊢
      rw [Nat.add_comm 1 (trainableBefore ps j)] at hlt ⊢
      cases cvs with
      | nil => simp at hlt
      | cons cv rest =>
        have hlt' : trainableBefore ps j < rest.length := by
          simpa using hlt
        obtain ⟨g', hg⟩ := applyNoise_trainable sample nm lr batch ps rest
          (generateNoise sample nm g cv p).2 j h hlt'
        refine ⟨g', ?_⟩
        simpa [applyNoise, hp, List.getD_cons_succ] using hg
    · rw [if_neg hp, Nat.zero_add] at hlt ⊢
      obtain ⟨g', hg⟩ := applyNoise_trainable sample nm lr batch ps cvs g j h hlt
      refine ⟨g', ?_⟩
      simpa [applyNoise, hp] using hg

/-- C7: in `step()`, for each trainable parameter (paired in order with the
clip values from `pre_step()`), the generated noise term is divided by the
accumulated batch size before being added in place to the parameter's
existing gradient when `loss_reduction == "mean"`, and is added undivided
when `loss_reduction == "sum"`. -/
theorem step_noise_scaling (sample : Nat → ℚ) (e : PrivacyEngine)
    (c : ClipperState) (j : Nat) (h : e.clipper = some c)
    (hbatch : c.accBatch + c.pendingBatch ≤ e.batch_size)
    (hj : (e.module.params.getD j defaultParam).requires_grad = true)
    (hcv : trainableBefore e.module.params j < c.clipValues.length) :
    (e.loss_reduction = "mean" → ∃ g' : Generator,
      (e.step sample).1.module.params.getD j defaultParam =
        { e.module.params.getD j defaultParam with
          grad := (e.module.params.getD j defaultParam).grad.addNoise
            ((generateNoise sample e.noise_multiplier g'
                (c.clipValues.getD (trainableBefore e.module.params j) 0)
                (e.module.params.getD j defaultParam)).1.divide
              (c.accBatch + c.pendingBatch)) }) ∧
    (e.loss_reduction = "sum" → ∃ g' : Generator,
      (e.step sample).1.module.params.getD j defaultParam =
        { e.module.params.getD j defaultParam with
          grad := (e.module.params.getD j defaultParam).grad.addNoise
            (generateNoise sample e.noise_multiplier g'
              (c.clipValues.getD (trainableBefore e.module.params j) 0)
              (e.module.params.getD j defaultParam)).1 }) := by
  have key : (e.step sample).1.module.params =
      (applyNoise sample e.noise_multiplier e.loss_reduction
        (c.accBatch + c.pendingBatch) e.module.params c.clipValues
        e.secure_generator).1 := by
    simp only [PrivacyEngine.step, h, ClipperState.clip_and_accumulate,
      ClipperState.pre_step]
    rw [if_neg (by omega)]
  obtain ⟨g', hg⟩ := applyNoise_trainable sample e.noise_multiplier
    e.loss_reduction (c.accBatch + c.pendingBatch) e.module.params c.clipValues
    e.secure_generator j hj hcv
  constructor
  · intro hlr
    refine ⟨g', ?_⟩
    rw [key, hg, hlr]
    simp
  · intro hlr
    refine ⟨g', ?_⟩
    rw [key, hg, hlr]
    simp

/-- C7 witness: at the concrete mean-reduction engine with accumulated batch
20 and clip value 1, the sole trainable parameter's gradient receives the
generated noise divided by 20. -/
theorem step_noise_scaling_witness :
    ∃ g' : Generator,
      (egEngine.step egSample).1.module.params.getD 0 defaultParam =
        { egParam with
          grad := Tensor.addNoise egParam.grad
            (NoiseTerm.divide (generateNoise egSample 1 g' 1 egParam).1 20) } := by
  have h := (step_noise_scaling egSample egEngine egClipperWarn 0 rfl
    (by decide) (by decide) (by decide)).1 rfl
  simpa [egEngine, egModule, egClipperWarn, egParam, trainableBefore] using h

/-- Helper for C9: the big-endian accumulation of bytes below 256 stays below
`(a + 1) * 256 ^ length` starting from accumulator `a`. -/
theorem foldl_bytes_lt : ∀ (bs : List Nat) (a : Nat), (∀ b ∈ bs, b < 256) →
    bs.foldl (fun x b => x * 256 + b) a < (a + 1) * 256 ^ bs.length
  | [], a, _ => by simp
  | b :: bs, a, h => by
    have hb : b < 256 := h b (List.mem_cons_self b bs)
    have ih := foldl_bytes_lt bs (a * 256 + b)
      (fun x hx => h x (List.mem_cons_of_mem b hx))
    calc (b :: bs).foldl (fun x b => x * 256 + b) a
        = bs.foldl (fun x b => x * 256 + b) (a * 256 + b) := rfl
      _ < (a * 256 + b + 1) * 256 ^ bs.length := ih
      _ ≤ ((a + 1) * 256) * 256 ^ bs.length :=
          Nat.mul_le_mul (by omega) (Nat.le_refl _)
      _ = (a + 1) * 256 ^ (b :: bs).length := by
          rw [List.length_cons, pow_succ]
          ring

/-- C9: `_set_seed` warns exactly when a seed is explicitly supplied (in which
case that seed is stored); when no seed is supplied the stored seed is the
secure 8-byte draw decoded as a signed big-endian 64-bit integer, hence lies
in `[-2^63, 2^63)`; in both cases the generator used for noise is rebuilt
keyed by the stored seed. -/
theorem set_seed_spec (e : PrivacyEngine) (seedOpt : Option Int)
    (urandom8 : List Nat) (hlen : urandom8.length = 8)
    (hbytes : ∀ b ∈ urandom8, b < 256) :
    ((e.set_seed seedOpt urandom8).2 = true ↔ seedOpt ≠ none) ∧
    (∀ s : Int, seedOpt = some s →
      (e.set_seed seedOpt urandom8).1.secure_seed = s) ∧
    (seedOpt = none →
      -(2 ^ 63) ≤ (e.set_seed seedOpt urandom8).1.secure_seed ∧
      (e.set_seed seedOpt urandom8).1.secure_seed < 2 ^ 63) ∧
    (e.set_seed seedOpt urandom8).1.secure_generator =
      mkSeededGenerator e.device (e.set_seed seedOpt urandom8).1.secure_seed := by
  rcases seedOpt with _ | s
  · refine ⟨by simp [PrivacyEngine.set_seed], by simp, fun _ => ?_, rfl⟩
    have hu : urandom8.foldl (fun x b => x * 256 + b) 0 < 2 ^ 64 := by
      have h := foldl_bytes_lt urandom8 0 hbytes
      rw [hlen] at h
      calc urandom8.foldl (fun x b => x * 256 + b) 0
          < (0 + 1) * 256 ^ 8 := h
        _ = 2 ^ 64 := by norm_num
    show -(2 ^ 63) ≤ intFromBytesBigSigned urandom8 ∧
      intFromBytesBigSigned urandom8 < 2 ^ 63
    rw [intFromBytesBigSigned, hlen]
    have h264 : (2:ℤ) ^ 64 = 18446744073709551616 := by norm_num
    have h263 : (2:ℤ) ^ 63 = 9223372036854775808 := by norm_num
    have h264n : (2:ℕ) ^ 64 = 18446744073709551616 := by norm_num
    have h263n : (2:ℕ) ^ (8 * 8 - 1) = 9223372036854775808 := by norm_num
    rw [h264n] at hu
    split_ifs with hge
    · rw [h263n] at hge
      constructor
      · rw [h263, h264]
        omega
      · rw [h263, h264]
        omega
    · rw [h263n] at hge
      constructor
      · rw [h263]
        omega
      · rw [h263]
        omega
  · exact ⟨by simp [PrivacyEngine.set_seed], by simp [PrivacyEngine.set_seed],
      by simp, rfl⟩

/-- C9 witness: at concrete 8 bytes, the secure path emits no warning and
stores an in-range signed seed whose value keys the generator; the manual
path warns and stores the supplied seed. -/
theorem set_seed_witness :
    (egEngine.set_seed none egBytes).2 = false ∧
    -(2 ^ 63) ≤ (egEngine.set_seed none egBytes).1.secure_seed ∧
    (egEngine.set_seed none egBytes).1.secure_seed < 2 ^ 63 ∧
    (egEngine.set_seed none egBytes).1.secure_generator =
      mkSeededGenerator egEngine.device (egEngine.set_seed none egBytes).1.secure_seed ∧
    (egEngine.set_seed (some 5) egBytes).2 = true ∧
    (egEngine.set_seed (some 5) egBytes).1.secure_seed = 5 := by
  have h1 := set_seed_spec egEngine none egBytes (by decide) (by decide)
  have h2 := set_seed_spec egEngine (some 5) egBytes (by decide) (by decide)
  refine ⟨?_, (h1.2.2.1 rfl).1, (h1.2.2.1 rfl).2, h1.2.2.2, ?_, h2.2.1 5 rfl⟩
  · have := h1.1
    simp only [ne_eq, not_true_eq_false, iff_false] at this
    exact Bool.not_eq_true _ ▸ (by simpa using this)
  · exact h2.1.mpr (by simp)

end TorchDP
